import Mathlib

/-!
Shallow Lean embedding of the realtime event pipeline of the
inventory-manager dashboard (React + socket.io client), together with
proofs of the specified properties.

Sources embedded:
  - SocketContext (SocketProvider): connection flags, the message log,
    the per-kind socket handlers, and sendMessage.
  - App.js: the alert ring (addAlert / removeAlert) and its seeded state.
  - InventoryView.js: the inventory merge effect over the message log.
  - AgentStatus.js: the agent-message merge effect.
  - Dashboard.js: the system-metrics shallow merge.

JavaScript numbers appearing only as opaque fixture values are modelled as
Int or Rat; the one arithmetic operation the claims exercise
(undefined + 1 = NaN) is modelled explicitly by the JsNum type.
-/

/-- The five inbound event kinds named by the external interface. -/
inductive EventKind where
  | inventory_update
  | agent_message
  | optimization_result
  | system_metrics
  | sustainability_update
deriving DecidableEq, Repr

/-- Payload of an inventory_update message (data.sku_id, data.warehouse_id,
data.current_stock). -/
structure InvPayload where
  sku_id : String
  warehouse_id : String
  current_stock : Int
deriving DecidableEq, Repr

/-- Payload of an agent_message. `from_agent` is Option because the code
reads it with optional chaining (data.from_agent?.toLowerCase()). -/
structure AgentPayload where
  from_agent : Option String
  to_agent : String
  message_type : String
  content : String
deriving DecidableEq, Repr

/-- Opaque structured payloads, one shape per kind as used by the views.
system_metrics and sustainability_update payloads are flat JS objects,
modelled as association lists of numeric fields. -/
inductive Payload where
  | inv (p : InvPayload)
  | agent (p : AgentPayload)
  | opt (sku_id : String)
  | metrics (fields : List (String × Rat))
  | sus (fields : List (String × Rat))
deriving DecidableEq, Repr

/-- A message appended to the log by a socket handler:
`{ type, data, timestamp: new Date() }`. The timestamp is never read by
any view, so it is not modelled. -/
structure Event where
  kind : EventKind
  data : Payload
deriving DecidableEq, Repr

/-- The kinds for which SocketProvider registers a newSocket.on handler.
The source registers exactly these four; no handler is registered for
sustainability_update. -/
def registeredKinds : List EventKind :=
  [.inventory_update, .agent_message, .optimization_result, .system_metrics]

/-- Ingestion of one delivered message: the matching handler (if any)
appends `{type, data, timestamp}` to the messages list; a kind without a
registered handler is dropped by the transport layer. -/
def ingest (log : List Event) (e : Event) : List Event :=
  if e.kind ∈ registeredKinds then log ++ [e] else log

/-- The message log after a whole delivery sequence, starting from the
initial empty messages state. -/
def ingestAll (deliveries : List Event) : List Event :=
  deliveries.foldl ingest []

/-- Connection-manager state: whether the socket object exists and the
`connected` flag (set on connect, cleared on disconnect). -/
structure SocketState where
  socketExists : Bool
  connected : Bool
deriving DecidableEq, Repr

/-- sendMessage(event, data): `if (socket && connected) socket.emit(event, data)`.
The outbox records each socket.emit call; a send while not connected (or
with no socket) performs no emit and returns normally. -/
def sendMessage (st : SocketState) (outbox : List (String × Payload))
    (event : String) (data : Payload) : List (String × Payload) :=
  if st.socketExists && st.connected then outbox ++ [(event, data)] else outbox

/-- An alert of the App-level ring:
`{ id: Date.now(), type, message, timestamp: new Date() }`.
Times are modelled as Nat milliseconds; id and timestamp of a pushed
alert both come from the same clock reading. -/
structure Alert where
  id : Nat
  type : String
  message : String
  timestamp : Nat
deriving DecidableEq, Repr

/-- addAlert(type, message) at clock reading `now`:
`setAlerts(prev => [newAlert, ...prev.slice(0, 9)])`. -/
def addAlert (now : Nat) (ty msg : String) (alerts : List Alert) : List Alert :=
  { id := now, type := ty, message := msg, timestamp := now } :: alerts.take 9

/-- removeAlert(id): `setAlerts(prev => prev.filter(alert => alert.id !== id))`. -/
def removeAlert (id : Nat) (alerts : List Alert) : List Alert :=
  alerts.filter (fun a => a.id ≠ id)

/-- The two alerts seeded by the mount effect of App.js (ids 1 and 2);
their mount-time timestamp is modelled as clock reading 0. -/
def initialAlerts : List Alert :=
  [ { id := 1, type := "info", message := "System initialized successfully", timestamp := 0 },
    { id := 2, type := "warning", message := "Demand spike detected for SKU001", timestamp := 0 } ]

/-- One user- or view-originated operation on the alert ring. -/
inductive AlertOp where
  | push (now : Nat) (ty msg : String)
  | dismiss (id : Nat)
deriving DecidableEq, Repr

/-- Applying one operation to the ring. -/
def alertStep (alerts : List Alert) (op : AlertOp) : List Alert :=
  match op with
  | .push now ty msg => addAlert now ty msg alerts
  | .dismiss id => removeAlert id alerts

/-- The ring state reached from the seeded state by a sequence of
operations: exactly the reachable alert-ring states. -/
def runAlerts (ops : List AlertOp) : List Alert :=
  ops.foldl alertStep initialAlerts

/-- The clock readings of the push operations of a run, in order. -/
def pushTimes (ops : List AlertOp) : List Nat :=
  ops.filterMap (fun op => match op with
    | .push now _ _ => some now
    | .dismiss _ => none)

/-- A SKU record of the inventory panel. A fresh record created by the
merge for an unknown SKU has every field other than currentStock absent
(undefined), which the defaults below express. currentStock is a JS
object keyed by warehouse id. Fractional fixture costs are modelled as
Rat; no claim computes with them. -/
structure SkuRec where
  name : Option String := none
  category : Option String := none
  unitCost : Option Rat := none
  currentStock : String → Option Int := fun _ => none
  minStock : Option Int := none
  maxStock : Option Int := none
  demandRate : Option Rat := none
  status : Option String := none

/-- The record a JS spread of undefined produces: no fields at all. -/
def emptySkuRec : SkuRec := {}

/-- The inventory panel state: a JS object keyed by SKU id. -/
def Inventory : Type := String → Option SkuRec

/-- The empty inventory object ({} before any fixture or message). -/
def emptyInventory : Inventory := fun _ => none

/-- The setInventory merge of InventoryView for one inventory_update:
  { ...prev,
    [data.sku_id]: { ...prev[data.sku_id],
      currentStock: { ...prev[data.sku_id]?.currentStock,
                      [data.warehouse_id]: data.current_stock } } } -/
def applyInventoryUpdate (inv : Inventory) (p : InvPayload) : Inventory :=
  fun sku =>
    if sku = p.sku_id then
      let base := (inv p.sku_id).getD emptySkuRec
      some { base with currentStock :=
        fun wh => if wh = p.warehouse_id then some p.current_stock
                  else base.currentStock wh }
    else inv sku

/-- One message of the log as seen by the inventory effect: only
inventory_update messages change the state. -/
def inventoryStep (inv : Inventory) (e : Event) : Inventory :=
  match e.kind, e.data with
  | .inventory_update, .inv p => applyInventoryUpdate inv p
  | _, _ => inv

/-- One full scan of the message log: messages.forEach over the whole
list, merging every inventory_update in order. -/
def inventoryScan (inv : Inventory) (log : List Event) : Inventory :=
  log.foldl inventoryStep inv

/-- Whether a message of the log is an inventory_update the inventory
effect processes. -/
def isInvEvent (e : Event) : Bool :=
  match e.kind, e.data with
  | .inventory_update, .inv _ => true
  | _, _ => false

/-- Number of inventory_update messages in a log slice; the effect calls
addAlert once per matching message on each scan. -/
def invMatchCount (log : List Event) : Nat :=
  (log.filter isInvEvent).length

/-- Total number of (merge, addAlert) processings performed by the
inventory effect over a session in which the log grows one delivered
message at a time: after the k-th append the effect re-runs and scans
the entire current log deliveries.take k. -/
def totalInvProcessed (deliveries : List Event) : Nat :=
  ((List.range deliveries.length).map
    (fun k => invMatchCount (deliveries.take (k + 1)))).sum

/-- A JavaScript number that may be NaN: the claims exercise
undefined + 1 = NaN on the messagesProcessed counter. -/
inductive JsNum where
  | num (n : Int)
  | nan
deriving DecidableEq, Repr

/-- `x + 1` in JavaScript where `x` may be a number, NaN, or undefined:
undefined + 1 and NaN + 1 are both NaN. -/
def jsSucc : Option JsNum → JsNum
  | some (.num n) => .num (n + 1)
  | some .nan => .nan
  | none => .nan

/-- One agent record of the AgentStatus panel. Each fixture agent defines
only its own subset of the fields below; absent fields are none
(undefined). lastActivity is a clock reading. -/
structure AgentRec where
  name : String
  status : String
  lastActivity : Nat
  messagesProcessed : Option JsNum := none
  forecastsGenerated : Option Int := none
  confidence : Option Rat := none
  ordersProcessed : Option Int := none
  suppliersMonitored : Option Int := none
  reliability : Option Rat := none
  shipmentsOptimized : Option Int := none
  routesCalculated : Option Int := none
  efficiency : Option Rat := none
  negotiationsCompleted : Option Int := none
  costSavings : Option Int := none
  successRate : Option Rat := none
  color : String
deriving DecidableEq, Repr

/-- The agents object: exactly the four keys demand, supply, logistics,
negotiation; no key is ever added or removed. -/
structure Agents where
  demand : AgentRec
  supply : AgentRec
  logistics : AgentRec
  negotiation : AgentRec
deriving DecidableEq, Repr

/-- JS property lookup agents[agentKey] over the four fixed keys. -/
def Agents.lookup (ag : Agents) (k : String) : Option AgentRec :=
  if k = "demand" then some ag.demand
  else if k = "supply" then some ag.supply
  else if k = "logistics" then some ag.logistics
  else if k = "negotiation" then some ag.negotiation
  else none

/-- JS computed-key record update { ...prev, [agentKey]: f(prev[agentKey]) }
over the four fixed keys. -/
def Agents.update (ag : Agents) (k : String) (f : AgentRec → AgentRec) : Agents :=
  if k = "demand" then { ag with demand := f ag.demand }
  else if k = "supply" then { ag with supply := f ag.supply }
  else if k = "logistics" then { ag with logistics := f ag.logistics }
  else if k = "negotiation" then { ag with negotiation := f ag.negotiation }
  else ag

/-- An entry of the recentMessages list of the AgentStatus panel. -/
structure RecentMsg where
  id : Nat
  from_key : String
  to_key : String
  type : String
  content : String
  timestamp : Nat
deriving DecidableEq, Repr

/-- The local state of the AgentStatus panel. -/
structure AgentPanel where
  agents : Agents
  recentMessages : List RecentMsg
deriving DecidableEq, Repr

/-- JS String.prototype.toLowerCase(), lowering character by character
(for the ASCII agent keys this is the whole behavior). -/
def jsToLower (s : String) : String := ⟨s.data.map Char.toLower⟩

/-- JSON.stringify(data.content).substring(0, 100) + "...": the JSON
serialization of the opaque content is abstracted to the content string
itself, then truncated. -/
def truncate100 (s : String) : String := String.append (s.take 100) "..."

/-- The AgentStatus effect body for one agent_message at clock reading
`now`: agentKey = data.from_agent?.toLowerCase(); if agentKey is truthy
and agents[agentKey] exists, merge lastActivity and
messagesProcessed = prev[agentKey].messagesProcessed + 1, and prepend a
recent-messages entry keeping the 10 most recent; otherwise no change.
An empty from_agent gives the falsy agentKey "" (also absent from the
four keys), so both guards drop it. -/
def processAgentMessage (now : Nat) (st : AgentPanel) (p : AgentPayload) : AgentPanel :=
  match p.from_agent with
  | none => st
  | some fa =>
    let agentKey := jsToLower fa
    match st.agents.lookup agentKey with
    | none => st
    | some rec =>
      { agents := st.agents.update agentKey (fun r =>
          { r with lastActivity := now,
                   messagesProcessed := some (jsSucc rec.messagesProcessed) }),
        recentMessages :=
          { id := now, from_key := fa, to_key := p.to_agent,
            type := p.message_type, content := truncate100 p.content,
            timestamp := now } :: st.recentMessages.take 9 }

/-- The fixture agents object of AgentStatus.js. Only the demand agent
defines messagesProcessed; mount-time lastActivity is clock reading 0. -/
def initialAgents : Agents :=
  { demand :=
      { name := "Demand Agent", status := "active", lastActivity := 0,
        messagesProcessed := some (.num 45), forecastsGenerated := some 12,
        confidence := some (87 / 100), color := "#28a745" },
    supply :=
      { name := "Supply Agent", status := "active", lastActivity := 0,
        ordersProcessed := some 23, suppliersMonitored := some 4,
        reliability := some (92 / 100), color := "#007bff" },
    logistics :=
      { name := "Logistics Agent", status := "active", lastActivity := 0,
        shipmentsOptimized := some 18, routesCalculated := some 156,
        efficiency := some (89 / 100), color := "#ffc107" },
    negotiation :=
      { name := "Negotiation Agent", status := "active", lastActivity := 0,
        negotiationsCompleted := some 7, costSavings := some 12500,
        successRate := some (85 / 100), color := "#dc3545" } }

/-- The dashboard metrics record: a JS object, modelled as a map from
field name to numeric value. -/
def Metrics : Type := String → Option Rat

/-- setMetrics(prev => ({ ...prev, ...message.data })): JS object spread,
data fields override, every other field keeps its previous value. -/
def mergeMetrics (prev : Metrics) (data : List (String × Rat)) : Metrics :=
  fun k => match data.lookup k with
    | some v => some v
    | none => prev k

/-- The Dashboard effect body for one message of the log: a
system_metrics payload is shallow-merged over the metrics record; every
other kind leaves the metrics record unchanged (optimization_result only
raises an alert). -/
def dashboardStep (m : Metrics) (e : Event) : Metrics :=
  match e.kind, e.data with
  | .system_metrics, .metrics fields => mergeMetrics m fields
  | _, _ => m

/-- Number of scans each message still takes part in, summed over the
log: a message delivered with r messages after it is scanned r + 1
times, once when it arrives and once for every later append. -/
def invScansRemaining : List Event → Nat
  | [] => 0
  | e :: rest => (if isInvEvent e then rest.length + 1 else 0) + invScansRemaining rest

/-- The four keys of the agents object. -/
def knownAgentKeys : List String := ["demand", "supply", "logistics", "negotiation"]

/-- The fixture recentMessages list of AgentStatus.js; the Date.now()
based ids and timestamps of the fixture are modelled as small constants,
no claim reads them. -/
def initialRecentMessages : List RecentMsg :=
  [ { id := 1, from_key := "demand", to_key := "supply", type := "demand_forecast",
      content := "Forecast spike for SKU001 - 150% increase expected", timestamp := 0 },
    { id := 2, from_key := "supply", to_key := "negotiation", type := "supply_alert",
      content := "Low stock alert for SKU003 - immediate reorder needed", timestamp := 0 },
    { id := 3, from_key := "logistics", to_key := "supply", type := "logistics_request",
      content := "Proposing inventory transfer from North to South warehouse", timestamp := 0 },
    { id := 4, from_key := "negotiation", to_key := "supply", type := "negotiation_offer",
      content := "Secured 15% discount from SUP002 for bulk order", timestamp := 0 } ]

/-- The AgentStatus panel in its mount state. -/
def initialAgentPanel : AgentPanel :=
  { agents := initialAgents, recentMessages := initialRecentMessages }

/-- The fixture metrics record of Dashboard.js. -/
def initialMetrics : Metrics := fun k =>
  if k = "totalInventoryValue" then some 125000
  else if k = "totalCarbonFootprint" then some 2450
  else if k = "serviceLevel" then some (94 / 100)
  else if k = "stockoutIncidents" then some 3
  else if k = "overstockIncidents" then some 7
  else if k = "costEfficiency" then some (87 / 100)
  else if k = "agentCommunicationVolume" then some 156
  else if k = "optimizationCyclesCompleted" then some 42
  else none

/-- A sustainability_update message as the server would deliver it. -/
def sustainabilityDemoEvent : Event :=
  { kind := .sustainability_update, data := .sus [("totalCarbonFootprint", 2000)] }

/-- C1 (code evaluated at the failing input): the spec declares five
inbound kinds all appended to the EventLog in delivery order, but
SocketProvider registers no handler for sustainability_update, so a
delivery of one sustainability_update leaves the messages list empty:
its length is 0, not the delivered count 1. -/
theorem ingest_drops_sustainability_update :
    (ingestAll [sustainabilityDemoEvent]).length = 0 ∧
    [sustainabilityDemoEvent].length = 1 ∧
    (ingestAll [sustainabilityDemoEvent]).length ≠ [sustainabilityDemoEvent].length := by
  refine ⟨rfl, rfl, ?_⟩
  decide

/-- C3: sendMessage never contacts the transport while disconnected
(the emit trace is unchanged and the call returns normally, queueing
nothing), and forwards the command to the transport when the socket
exists and the connection flag is set. -/
theorem sendMessage_disconnected_noop (st : SocketState)
    (outbox : List (String × Payload)) (event : String) (data : Payload) :
    (st.connected = false → sendMessage st outbox event data = outbox) ∧
    (st.socketExists = true → st.connected = true →
      sendMessage st outbox event data = outbox ++ [(event, data)]) := by
  constructor
  · intro h
    simp [sendMessage, h]
  · intro h1 h2
    simp [sendMessage, h1, h2]

/-- Witness for C3 at a concrete disconnected and a concrete connected
state, with the trigger_optimization command of the dashboard. -/
theorem sendMessage_disconnected_noop_witness :
    (SocketState.connected { socketExists := true, connected := false } = false ∧
      sendMessage { socketExists := true, connected := false } [] "trigger_optimization" (.opt "SKU001") = []) ∧
    (sendMessage { socketExists := true, connected := true } [] "trigger_optimization" (.opt "SKU001") =
      [("trigger_optimization", .opt "SKU001")]) :=
  ⟨⟨rfl, (sendMessage_disconnected_noop { socketExists := true, connected := false } [] "trigger_optimization" (.opt "SKU001")).1 rfl⟩,
   (sendMessage_disconnected_noop { socketExists := true, connected := true } [] "trigger_optimization" (.opt "SKU001")).2 rfl rfl⟩

/-- C4: pushing onto a ring of at most 10 alerts keeps the length at
most 10 and puts the new alert first; on a full ring of 10 the result is
the new alert followed by all prior alerts except the last one, which in
the newest-first ring is exactly the oldest by insertion order. -/
theorem addAlert_ring_bound (now : Nat) (ty msg : String) (alerts : List Alert)
    (hlen : alerts.length ≤ 10) :
    (addAlert now ty msg alerts).length ≤ 10 ∧
    (addAlert now ty msg alerts).head? =
      some { id := now, type := ty, message := msg, timestamp := now } ∧
    (alerts.length = 10 →
      addAlert now ty msg alerts =
        { id := now, type := ty, message := msg, timestamp := now } :: alerts.dropLast) := by
  refine ⟨?_, rfl, ?_⟩
  · simp only [addAlert, List.length_cons, List.length_take]
    omega
  · intro h10
    simp only [addAlert, List.dropLast_eq_take, h10]

/-- A concrete full ring of 10 alerts, newest first. -/
def alertsDemo10 : List Alert :=
  (List.range 10).map fun i => { id := 50 - i, type := "info", message := "m", timestamp := 50 - i }

/-- Witness for C4: a full ring of 10 alerts, pushed an 11th time. -/
theorem addAlert_ring_bound_witness :
    (alertsDemo10.length ≤ 10 ∧ alertsDemo10.length = 10) ∧
    addAlert 99 "info" "x" alertsDemo10 =
      { id := 99, type := "info", message := "x", timestamp := 99 } :: alertsDemo10.dropLast :=
  ⟨⟨by decide, by decide⟩,
   (addAlert_ring_bound 99 "info" "x" alertsDemo10 (by decide)).2.2 (by decide)⟩

/-- C8: dismissing an id held by no alert of the ring leaves the ring
unchanged, and dismissing the same id twice equals dismissing it once. -/
theorem removeAlert_absent_noop (id : Nat) (alerts : List Alert) :
    ((∀ a ∈ alerts, a.id ≠ id) → removeAlert id alerts = alerts) ∧
    removeAlert id (removeAlert id alerts) = removeAlert id alerts := by
  constructor
  · intro h
    apply List.filter_eq_self.mpr
    intro a ha
    simpa using h a ha
  · simp [removeAlert, List.filter_filter]

/-- Witness for C8: the seeded ring holds ids 1 and 2 only; dismissing
id 3 changes nothing. -/
theorem removeAlert_absent_noop_witness :
    (∀ a ∈ initialAlerts, a.id ≠ 3) ∧ removeAlert 3 initialAlerts = initialAlerts :=
  ⟨by decide, (removeAlert_absent_noop 3 initialAlerts).1 (by decide)⟩

/-- C5: an inventory_update for a SKU absent from local state creates a
fresh record holding only the reported warehouse stock: from the empty
inventory, the literal event (SKU999, north, 10) yields exactly one
entry, SKU999, whose currentStock.north is 10, every other warehouse
stock absent and every other field undefined. -/
theorem inventory_update_creates_partial_record :
    applyInventoryUpdate emptyInventory
        { sku_id := "SKU999", warehouse_id := "north", current_stock := 10 } =
      fun sku =>
        if sku = "SKU999" then
          some { name := none, category := none, unitCost := none,
                 currentStock := fun wh => if wh = "north" then some 10 else none,
                 minStock := none, maxStock := none, demandRate := none,
                 status := none }
        else none := rfl

/-- agents[agentKey] yields undefined for a key that is none of the four
agent keys. -/
theorem Agents.lookup_eq_none_of_unknown (ag : Agents) (k : String)
    (h : k ∉ knownAgentKeys) : ag.lookup k = none := by
  simp only [knownAgentKeys, List.mem_cons, List.not_mem_nil, or_false, not_or] at h
  obtain ⟨h1, h2, h3, h4⟩ := h
  simp [Agents.lookup, h1, h2, h3, h4]

/-- C6: an agent_message whose from_agent lowercases to none of the four
known agent keys changes nothing in the agent panel: the four agent
records and the recent-messages list are exactly the pre-event state. -/
theorem agent_message_unknown_key_noop (now : Nat) (st : AgentPanel)
    (p : AgentPayload) (fa : String) (hfa : p.from_agent = some fa)
    (h : jsToLower fa ∉ knownAgentKeys) :
    processAgentMessage now st p = st := by
  unfold processAgentMessage
  rw [hfa]
  simp [Agents.lookup_eq_none_of_unknown st.agents (jsToLower fa) h]

/-- The literal scenario of the claim: from_agent UNKNOWN. -/
def unknownAgentDemo : AgentPayload :=
  { from_agent := some "UNKNOWN", to_agent := "supply",
    message_type := "ping", content := "hello" }

/-- Witness for C6: the UNKNOWN message leaves the mounted panel state
untouched. -/
theorem agent_message_unknown_key_noop_witness :
    (unknownAgentDemo.from_agent = some "UNKNOWN" ∧
      jsToLower "UNKNOWN" ∉ knownAgentKeys) ∧
    processAgentMessage 7 initialAgentPanel unknownAgentDemo = initialAgentPanel :=
  ⟨⟨rfl, by decide⟩,
   agent_message_unknown_key_noop 7 initialAgentPanel unknownAgentDemo "UNKNOWN" rfl (by decide)⟩

/-- C9: the agent panel matches from_agent case-insensitively (the key
is lowercased before lookup), and on the mount state the merge sets
messagesProcessed to NaN for supply, logistics and negotiation, whose
fixture records leave that field undefined; only the demand fixture
defines it (45), so a demand message yields 46. -/
theorem agent_merge_lowercase_nan (now : Nat) (rm : List RecentMsg)
    (p : AgentPayload) (fa : String) (hfa : p.from_agent = some fa) :
    (jsToLower fa = "supply" →
      (processAgentMessage now { agents := initialAgents, recentMessages := rm } p).agents.supply.messagesProcessed
        = some JsNum.nan) ∧
    (jsToLower fa = "logistics" →
      (processAgentMessage now { agents := initialAgents, recentMessages := rm } p).agents.logistics.messagesProcessed
        = some JsNum.nan) ∧
    (jsToLower fa = "negotiation" →
      (processAgentMessage now { agents := initialAgents, recentMessages := rm } p).agents.negotiation.messagesProcessed
        = some JsNum.nan) ∧
    (jsToLower fa = "demand" →
      (processAgentMessage now { agents := initialAgents, recentMessages := rm } p).agents.demand.messagesProcessed
        = some (JsNum.num 46)) := by
  refine ⟨?_, ?_, ?_, ?_⟩ <;> intro hk <;>
    simp [processAgentMessage, hfa, hk, Agents.lookup, Agents.update,
      initialAgents, jsSucc]

/-- A message from SUPPLY, upper case on the wire. -/
def supplyMsgDemo : AgentPayload :=
  { from_agent := some "SUPPLY", to_agent := "demand",
    message_type := "supply_alert", content := "low stock" }

/-- Witness for C9: the upper-case SUPPLY message is matched to the
supply agent and drives its undefined counter to NaN. -/
theorem agent_merge_lowercase_nan_witness :
    (supplyMsgDemo.from_agent = some "SUPPLY" ∧ jsToLower "SUPPLY" = "supply") ∧
    (processAgentMessage 7 { agents := initialAgents, recentMessages := initialRecentMessages } supplyMsgDemo).agents.supply.messagesProcessed
      = some JsNum.nan :=
  ⟨⟨rfl, rfl⟩,
   (agent_merge_lowercase_nan 7 initialRecentMessages supplyMsgDemo "SUPPLY" rfl).1 rfl⟩

/-- List.lookup misses every key absent from the key list. -/
theorem lookup_eq_none_of_not_mem_keys (fields : List (String × Rat)) (k : String)
    (h : k ∉ fields.map Prod.fst) : fields.lookup k = none := by
  induction fields with
  | nil => rfl
  | cons hd tl ih =>
    obtain ⟨a, b⟩ := hd
    simp only [List.map_cons, List.mem_cons, not_or] at h
    obtain ⟨h1, h2⟩ := h
    simpa [List.lookup, beq_eq_false_iff_ne.mpr h1] using ih h2

/-- C10: a system_metrics event is merged shallowly over the metrics
record: a field not named in the payload keeps exactly its previous
value, and a named field takes the payload value. -/
theorem system_metrics_shallow_merge_frame (m : Metrics)
    (fields : List (String × Rat)) (k : String) :
    (k ∉ fields.map Prod.fst →
      dashboardStep m { kind := .system_metrics, data := .metrics fields } k = m k) ∧
    (∀ v, fields.lookup k = some v →
      dashboardStep m { kind := .system_metrics, data := .metrics fields } k = some v) := by
  constructor
  · intro h
    simp [dashboardStep, mergeMetrics, lookup_eq_none_of_not_mem_keys fields k h]
  · intro v hv
    simp [dashboardStep, mergeMetrics, hv]

/-- Witness for C10: a payload naming only totalInventoryValue leaves
serviceLevel at its fixture value and overwrites totalInventoryValue. -/
theorem system_metrics_shallow_merge_frame_witness :
    ("serviceLevel" ∉ [("totalInventoryValue", (130000 : Rat))].map Prod.fst ∧
      dashboardStep initialMetrics
        { kind := .system_metrics, data := .metrics [("totalInventoryValue", 130000)] } "serviceLevel"
        = initialMetrics "serviceLevel") ∧
    ([("totalInventoryValue", (130000 : Rat))].lookup "totalInventoryValue" = some 130000 ∧
      dashboardStep initialMetrics
        { kind := .system_metrics, data := .metrics [("totalInventoryValue", 130000)] } "totalInventoryValue"
        = some 130000) :=
  ⟨⟨by decide,
    (system_metrics_shallow_merge_frame initialMetrics [("totalInventoryValue", 130000)] "serviceLevel").1 (by decide)⟩,
   ⟨by decide,
    (system_metrics_shallow_merge_frame initialMetrics [("totalInventoryValue", 130000)] "totalInventoryValue").2 130000 (by decide)⟩⟩

/-- Two inventory_update deliveries. -/
def invDemoA : Event :=
  { kind := .inventory_update,
    data := .inv { sku_id := "SKU001", warehouse_id := "north", current_stock := 50 } }

/-- A second inventory_update delivery. -/
def invDemoB : Event :=
  { kind := .inventory_update,
    data := .inv { sku_id := "SKU002", warehouse_id := "south", current_stock := 70 } }

/-- C2 counterexample: with two matching deliveries the inventory effect
performs three processings (the first event is re-merged and re-alerted
by the scan the second append triggers), so the total exceeds the number
of matching events: events are not processed only once nor alerted at
most once. -/
theorem inventory_rescan_processes_again :
    invMatchCount [invDemoA, invDemoB] = 2 ∧
    totalInvProcessed [invDemoA, invDemoB] = 3 ∧
    ¬ totalInvProcessed [invDemoA, invDemoB] ≤ invMatchCount [invDemoA, invDemoB] := by
  refine ⟨rfl, rfl, by decide⟩

/-- Appending one delivery adds one full scan of the grown log to the
processing total. -/
theorem totalInvProcessed_append (d : List Event) (e : Event) :
    totalInvProcessed (d ++ [e]) = totalInvProcessed d + invMatchCount (d ++ [e]) := by
  unfold totalInvProcessed
  have hlen : (d ++ [e]).length = d.length + 1 := by simp
  rw [hlen, List.range_succ, List.map_append, List.sum_append]
  congr 1
  · apply congrArg List.sum
    apply List.map_congr_left
    intro k hk
    have hk1 : k + 1 ≤ d.length := List.mem_range.mp hk
    rw [List.take_append_of_le_length hk1]
  · simp only [List.map_cons, List.map_nil, List.sum_cons, List.sum_nil, add_zero]
    rw [← hlen, List.take_length]

/-- One matching message adds one to the match count of a log slice. -/
theorem invMatchCount_cons (a : Event) (l : List Event) :
    invMatchCount (a :: l) = (if isInvEvent a then 1 else 0) + invMatchCount l := by
  cases h : isInvEvent a <;>
    simp [invMatchCount, List.filter_cons, h, Nat.add_comm]

/-- The scans-since-arrival total also grows by one full scan of the
grown log per append. -/
theorem invScansRemaining_append (d : List Event) (e : Event) :
    invScansRemaining (d ++ [e]) = invScansRemaining d + invMatchCount (d ++ [e]) := by
  induction d with
  | nil =>
    cases h : isInvEvent e <;>
      simp [invScansRemaining, invMatchCount, List.filter_cons, h]
  | cons a d ih =>
    simp only [List.cons_append, invScansRemaining, ih, invMatchCount_cons,
      List.length_append, List.length_cons, List.length_nil]
    cases h : isInvEvent a <;> simp [h] <;> omega

/-- C2 amended: on every append the inventory effect re-scans the entire
message log, not only the events delivered since its last scan; over a
session, a matching event delivered with r events after it is merged and
alerted r + 1 times (once per scan from its arrival on), so the total
number of processings is the sum of scans-since-arrival over matching
events rather than one per event. -/
theorem totalInvProcessed_eq_invScansRemaining (d : List Event) :
    totalInvProcessed d = invScansRemaining d := by
  induction d using List.reverseRecOn with
  | nil => rfl
  | append_singleton d e ih =>
    rw [totalInvProcessed_append, invScansRemaining_append, ih]

/-- C7 counterexample: two pushes at the same millisecond (id comes from
Date.now()) produce a reachable ring holding two distinct alerts with
the same id, so ids are not unique under pushes arbitrarily close in
time. -/
theorem alert_id_collision_same_millisecond :
    (runAlerts [.push 5 "info" "a", .push 5 "warning" "b"]).Nodup ∧
    ¬ ((runAlerts [.push 5 "info" "a", .push 5 "warning" "b"]).map Alert.id).Nodup := by
  constructor <;> decide

/-- pushTimes strips a push. -/
theorem pushTimes_cons_push (now : Nat) (ty msg : String) (rest : List AlertOp) :
    pushTimes (.push now ty msg :: rest) = now :: pushTimes rest := rfl

/-- pushTimes skips a dismiss. -/
theorem pushTimes_cons_dismiss (id : Nat) (rest : List AlertOp) :
    pushTimes (.dismiss id :: rest) = pushTimes rest := rfl

/-- Invariant of the alert ring run: if the ids currently in the ring
are pairwise distinct and every upcoming push time is fresh (distinct
from the other push times and from every id in the ring), the ids stay
pairwise distinct. -/
theorem runAlerts_nodup_aux (ops : List AlertOp) (s : List Alert)
    (hs : (s.map Alert.id).Nodup)
    (hnd : (pushTimes ops).Nodup)
    (hfresh : ∀ t ∈ pushTimes ops, ∀ a ∈ s, a.id ≠ t) :
    ((ops.foldl alertStep s).map Alert.id).Nodup := by
  induction ops generalizing s with
  | nil => exact hs
  | cons op rest ih =>
    rw [List.foldl_cons]
    cases op with
    | push now ty msg =>
      rw [pushTimes_cons_push] at hnd hfresh
      have hnotin : now ∉ pushTimes rest := (List.nodup_cons.mp hnd).1
      have hnow : ∀ a ∈ s, a.id ≠ now := fun a ha =>
        hfresh now (List.mem_cons_self now (pushTimes rest)) a ha
      apply ih
      · show ((addAlert now ty msg s).map Alert.id).Nodup
        simp only [addAlert, List.map_cons]
        rw [List.nodup_cons]
        refine ⟨?_, ((List.take_sublist 9 s).map Alert.id).nodup hs⟩
        intro hmem
        obtain ⟨a, ha, hid⟩ := List.mem_map.mp hmem
        exact hnow a (List.mem_of_mem_take ha) hid
      · exact (List.nodup_cons.mp hnd).2
      · intro t ht a ha
        rcases List.mem_cons.mp ha with h1 | h2
        · subst h1
          show now ≠ t
          intro hEq
          exact hnotin (hEq ▸ ht)
        · exact hfresh t (List.mem_cons_of_mem now ht) a (List.mem_of_mem_take h2)
    | dismiss id =>
      rw [pushTimes_cons_dismiss] at hnd hfresh
      apply ih
      · exact ((List.filter_sublist s).map Alert.id).nodup hs
      · exact hnd
      · intro t ht a ha
        exact hfresh t ht a (List.mem_of_mem_filter ha)

/-- C7 amended: alert ids are unique on every reachable ring state
provided the push clock readings are pairwise distinct and differ from
the two seeded ids 1 and 2; with id = Date.now(), pushes in the same
millisecond (or at the seeded ids) can collide. -/
theorem alert_ids_nodup_of_distinct_times (ops : List AlertOp)
    (hnd : (pushTimes ops).Nodup)
    (hseed : ∀ t ∈ pushTimes ops, t ≠ 1 ∧ t ≠ 2) :
    ((runAlerts ops).map Alert.id).Nodup := by
  apply runAlerts_nodup_aux ops initialAlerts (by decide) hnd
  intro t ht a ha
  have h12 := hseed t ht
  have : a.id = 1 ∨ a.id = 2 := by
    simp only [initialAlerts, List.mem_cons, List.not_mem_nil, or_false] at ha
    rcases ha with h | h <;> subst h
    · exact Or.inl rfl
    · exact Or.inr rfl
  rcases this with h | h <;> rw [h]
  · exact fun hEq => h12.1 hEq.symm
  · exact fun hEq => h12.2 hEq.symm

/-- A run with fresh push times: two pushes at distinct milliseconds and
one dismissal. -/
def alertOpsDemo : List AlertOp :=
  [.push 100 "info" "x", .dismiss 1, .push 200 "error" "y"]

/-- Witness for the amended C7 at a concrete run. -/
theorem alert_ids_nodup_of_distinct_times_witness :
    ((pushTimes alertOpsDemo).Nodup ∧
      ∀ t ∈ pushTimes alertOpsDemo, t ≠ 1 ∧ t ≠ 2) ∧
    ((runAlerts alertOpsDemo).map Alert.id).Nodup :=
  ⟨⟨by decide, by decide⟩,
   alert_ids_nodup_of_distinct_times alertOpsDemo (by decide) (by decide)⟩
